import Mathlib

/-
Shallow embedding of the appointment availability and booking engine of the
salon-booking service (routes/bookings.py, routes/salon_bookings.py,
routes/masters.py, core/booking_tasks.py).

Times of day are modelled as minutes since midnight (Python `time`),
dates as day indices (Python `date`), and datetimes as absolute minutes
(`datetime.combine(d, t) = d * 1440 + t`).  Database rows are Lean
structures; a query is a `find?`/`filter` over the corresponding list.
A Python function that can raise an exception before returning is
modelled with `Option`/`Except`, `none`/`.error` being the raised path.
-/

namespace Jazyl

abbrev Time := Nat
abbrev DateTime := Nat
abbrev Day := Nat

def combine (d : Day) (t : Time) : DateTime := d * 1440 + t

def timeOf (dt : DateTime) : Time := dt % 1440

def dateOf (dt : DateTime) : Day := dt / 1440

/-- Python `date.isoweekday()`: 1 = Monday .. 7 = Sunday; day index 0 is taken
as a Monday. -/
def isoweekday (d : Day) : Nat := d % 7 + 1

inductive BookingStatus
  | pending
  | confirmed
  | in_progress
  | completed
  | cancelled_by_client
  | cancelled_by_salon
  | no_show
deriving DecidableEq

/-- The `.value` string of the `BookingStatus` enum. -/
def statusValue : BookingStatus → String
  | .pending => "pending"
  | .confirmed => "confirmed"
  | .in_progress => "in_progress"
  | .completed => "completed"
  | .cancelled_by_client => "cancelled_by_client"
  | .cancelled_by_salon => "cancelled_by_salon"
  | .no_show => "no_show"

inductive ExceptionType
  | day_off
  | custom_hours
  | fully_booked
deriving DecidableEq

inductive BookingCreatedVia
  | website
  | mobile_app
  | catalog
  | manager
deriving DecidableEq

structure Service where
  id : Nat
  duration_minutes : Nat
  base_price : Int
  is_active : Bool
deriving DecidableEq

structure Master where
  id : Nat
  is_active : Bool
deriving DecidableEq

structure MasterService where
  master_id : Nat
  service_id : Nat
  custom_price : Option Int
deriving DecidableEq

structure BreakPeriod where
  break_start : Time
  break_end : Time
deriving DecidableEq

structure MasterSchedule where
  master_id : Nat
  branch_id : Nat
  day_of_week : Nat
  is_working : Bool
  start_time : Option Time
  end_time : Option Time
  breaks : List BreakPeriod
deriving DecidableEq

structure ScheduleException where
  master_id : Nat
  exception_date : Day
  exception_type : ExceptionType
  custom_start_time : Option Time
  custom_end_time : Option Time
deriving DecidableEq

structure Booking where
  client_id : Nat
  master_id : Nat
  service_id : Nat
  branch_id : Nat
  booking_date : Day
  start_time : Time
  end_time : Time
  final_price : Int
  status : BookingStatus
  created_via : Option BookingCreatedVia
  notes_from_client : Option String
  notes_for_master : Option String
  reminded_at : Option DateTime
  completed_at : Option DateTime
  cancelled_at : Option DateTime
  cancellation_reason : Option String
deriving DecidableEq

structure AvailableSlot where
  slot_time : Time
  slot_end : Time
  is_available : Bool := true
deriving DecidableEq

structure Db where
  masters : List Master
  services : List Service
  master_services : List MasterService
  schedules : List MasterSchedule
  exceptions : List ScheduleException
  bookings : List Booking
deriving DecidableEq

/-- Break-overlap test of the slot loop:
`not (slot_end_time <= break_start or slot_start_time >= break_end)`. -/
def isBreakSlot (breaks : List BreakPeriod) (slot_start slot_end : Time) : Bool :=
  breaks.any fun bp =>
    !(decide (slot_end ≤ bp.break_start) || decide (slot_start ≥ bp.break_end))

/-- Existing-booking overlap test of the slot loop, with the 5-minute buffer
added after the existing booking's end only. -/
def isBookedSlot (existing : List Booking) (booking_date : Day)
    (slot_start slot_end : Time) : Bool :=
  existing.any fun b =>
    let booking_start_dt := combine b.booking_date b.start_time
    let booking_end_dt := combine b.booking_date b.end_time + 5
    let slot_start_dt := combine booking_date slot_start
    let slot_end_dt := combine booking_date slot_end
    !(decide (slot_end_dt ≤ booking_start_dt) || decide (slot_start_dt ≥ booking_end_dt))

/-- The `while current_datetime + service_duration <= end_datetime` loop of
`calculate_available_slots`.  `fuel` is a structural bound on the number of
iterations; the caller passes `end_datetime + 1`, which is enough:
the loop advances by 15 minutes each step, so after `end_datetime + 1` steps
the guard `current + duration <= end_datetime` has certainly failed. -/
def slotLoop (fuel : Nat) (booking_date : Day) (end_dt : DateTime)
    (duration : Nat) (now : DateTime) (breaks : List BreakPeriod)
    (existing : List Booking) (current : DateTime) : List AvailableSlot :=
  match fuel with
  | 0 => []
  | fuel + 1 =>
    if current + duration ≤ end_dt then
      let slot_start := timeOf current
      let slot_end := timeOf (current + duration)
      if combine booking_date slot_start < now + 60 then
        slotLoop fuel booking_date end_dt duration now breaks existing (current + 15)
      else if isBreakSlot breaks slot_start slot_end then
        slotLoop fuel booking_date end_dt duration now breaks existing (current + 15)
      else if isBookedSlot existing booking_date slot_start slot_end then
        slotLoop fuel booking_date end_dt duration now breaks existing (current + 15)
      else
        ⟨slot_start, slot_end, true⟩ ::
          slotLoop fuel booking_date end_dt duration now breaks existing (current + 15)
    else []

/-- The query for existing bookings of the master on the date in status
PENDING, CONFIRMED or IN_PROGRESS. -/
def existingBookings (db : Db) (master_id : Nat) (booking_date : Day) : List Booking :=
  db.bookings.filter fun b =>
    b.master_id == master_id && b.booking_date == booking_date &&
      (b.status == .pending || b.status == .confirmed || b.status == .in_progress)

/-- `calculate_available_slots` from routes/bookings.py.  `none` models the
function raising (`datetime.combine` applied to a `None` time). -/
def calculate_available_slots (db : Db) (master_id service_id branch_id : Nat)
    (booking_date : Day) (now : DateTime) : Option (List AvailableSlot) :=
  match db.services.find? (fun s => s.id == service_id) with
  | none => some []
  | some service =>
    let duration := service.duration_minutes
    let day_of_week := isoweekday booking_date
    let exc := db.exceptions.find? fun e =>
      e.master_id == master_id && e.exception_date == booking_date
    let window : Option (Option Time × Option Time × List BreakPeriod) :=
      match exc with
      | some e =>
        match e.exception_type with
        | .day_off => none
        | .fully_booked => none
        | .custom_hours => some (e.custom_start_time, e.custom_end_time, [])
      | none =>
        match db.schedules.find? (fun s =>
            s.master_id == master_id && s.branch_id == branch_id &&
              s.day_of_week == day_of_week) with
        | none => none
        | some sched =>
          if sched.is_working then some (sched.start_time, sched.end_time, sched.breaks)
          else none
    match window with
    | none => some []
    | some (ws?, we?, breaks) =>
      let existing := existingBookings db master_id booking_date
      match ws?, we? with
      | some ws, some we =>
        let start_dt := combine booking_date ws
        let end_dt := combine booking_date we
        some (slotLoop (end_dt + 1) booking_date end_dt duration now breaks existing start_dt)
      | _, _ => none

inductive ApiError
  | notFound (detail : String)
  | conflict (detail : String)
  | badRequest (detail : String)
  | internalError
deriving DecidableEq

structure BookingCreate where
  master_id : Nat
  service_id : Nat
  branch_id : Nat
  booking_date : Day
  start_time : Time
  notes_from_client : Option String := none
deriving DecidableEq

/-- `create_booking` from routes/bookings.py.  `.error .internalError` models
an unhandled exception escaping from `calculate_available_slots`. -/
def create_booking (db : Db) (booking_data : BookingCreate) (client_id : Nat)
    (now : DateTime) : Except ApiError Booking :=
  match db.masters.find? (fun m => m.id == booking_data.master_id && m.is_active) with
  | none => .error (.notFound "Master not found or inactive")
  | some _ =>
  match db.services.find? (fun s => s.id == booking_data.service_id && s.is_active) with
  | none => .error (.notFound "Service not found or inactive")
  | some service =>
  match calculate_available_slots db booking_data.master_id booking_data.service_id
      booking_data.branch_id booking_data.booking_date now with
  | none => .error .internalError
  | some available_slots =>
    if available_slots.any (fun slot => slot.slot_time == booking_data.start_time) then
      let end_time := timeOf
        (combine booking_data.booking_date booking_data.start_time + service.duration_minutes)
      let master_service := db.master_services.find? fun ms =>
        ms.master_id == booking_data.master_id && ms.service_id == booking_data.service_id
      let final_price :=
        match master_service with
        | some ms =>
          match ms.custom_price with
          | some p => if p == 0 then service.base_price else p
          | none => service.base_price
        | none => service.base_price
      .ok
        { client_id := client_id
          master_id := booking_data.master_id
          service_id := booking_data.service_id
          branch_id := booking_data.branch_id
          booking_date := booking_data.booking_date
          start_time := booking_data.start_time
          end_time := end_time
          final_price := final_price
          status := .pending
          created_via := some .mobile_app
          notes_from_client := booking_data.notes_from_client
          notes_for_master := none
          reminded_at := none
          completed_at := none
          cancelled_at := none
          cancellation_reason := none }
    else .error (.conflict "Selected time slot is no longer available")

/-- The `allowed_transitions` table of routes/salon_bookings.py. -/
def allowed_transitions : BookingStatus → List BookingStatus
  | .pending => [.confirmed, .cancelled_by_salon]
  | .confirmed => [.in_progress, .cancelled_by_salon, .no_show]
  | .in_progress => [.completed, .cancelled_by_salon]
  | .completed => []
  | .cancelled_by_client => []
  | .cancelled_by_salon => []
  | .no_show => []

structure BookingStatusUpdate where
  status : BookingStatus
  cancellation_reason : Option String := none
  notes_for_master : Option String := none
deriving DecidableEq

/-- `update_booking_status` from routes/salon_bookings.py (the status-machine
core, after the lookup and permission guards).  An empty string is falsy in
Python, hence the emptiness tests on the optional string fields. -/
def update_booking_status (booking : Booking) (status_update : BookingStatusUpdate)
    (now : DateTime) : Except ApiError Booking :=
  let current_status := booking.status
  let new_status := status_update.status
  if (allowed_transitions current_status).contains new_status then
    let b1 := { booking with status := new_status }
    let b2 :=
      if new_status == .cancelled_by_salon then
        let b' := { b1 with cancelled_at := some now }
        match status_update.cancellation_reason with
        | some r => if r == "" then b' else { b' with cancellation_reason := some r }
        | none => b'
      else if new_status == .completed then { b1 with completed_at := some now }
      else b1
    let b3 :=
      match status_update.notes_for_master with
      | some nn => if nn == "" then b2 else { b2 with notes_for_master := some nn }
      | none => b2
    .ok b3
  else
    .error (.badRequest
      ("Cannot transition from " ++ statusValue current_status ++ " to " ++ statusValue new_status))

/-- `update_booking` from routes/bookings.py: the client-side status change
(clients can only cancel). -/
def update_booking (booking : Booking) (status : String) (now : DateTime) :
    Except ApiError Booking :=
  if status == "cancelled_by_client" then
    if booking.status == .pending || booking.status == .confirmed then
      .ok { booking with status := .cancelled_by_client, cancelled_at := some now }
    else .error (.badRequest "Cannot cancel booking in current status")
  else .error (.badRequest "Invalid status transition")

/-- The booking row as stored after an endpoint call: an `.error` result models
an HTTPException raised before any mutation was committed, so the stored row
is the original one. -/
def persisted (booking : Booking) : Except ApiError Booking → Booking
  | .ok b' => b'
  | .error _ => booking

/-- The per-booking body of `auto_complete_bookings` in core/booking_tasks.py:
the query selects status in CONFIRMED/IN_PROGRESS and booking_date in
today/yesterday, and the loop completes the booking when
`end_datetime + 2 hours <= now`, with `completed_at = end_datetime`. -/
def auto_complete_step (now : DateTime) (today yesterday : Day) (b : Booking) : Booking :=
  if (b.status == .confirmed || b.status == .in_progress) &&
      (b.booking_date == today || b.booking_date == yesterday) then
    let booking_end_datetime := combine b.booking_date b.end_time
    if booking_end_datetime + 120 ≤ now then
      { b with status := .completed, completed_at := some booking_end_datetime }
    else b
  else b

/-- `auto_complete_bookings` from core/booking_tasks.py, as a sweep over the
stored bookings. -/
def auto_complete_bookings (now : DateTime) (bookings : List Booking) : List Booking :=
  bookings.map (auto_complete_step now (dateOf now) (dateOf now - 1))

/-- The filter of the 24h-reminder query in `send_booking_reminders`
(core/booking_tasks.py): status in PENDING/CONFIRMED, `reminded_at IS NULL`,
and `booking_date` between `(now + 23h45m).date()` and `(now + 24h15m).date()`.
Note that only the calendar date is constrained, never `start_time`. -/
def bookings_24h_query (now : DateTime) (b : Booking) : Bool :=
  (b.status == .pending || b.status == .confirmed) &&
  b.reminded_at == none &&
  decide (dateOf (now + 1425) ≤ b.booking_date) &&
  decide (b.booking_date ≤ dateOf (now + 1455))

/-- `send_24h_reminder` from core/booking_tasks.py: skips bookings whose
client or client phone is missing; on a successful WhatsApp send (modelled by
the `sendOk` flag) sets `reminded_at` to now. -/
def send_24h_reminder (now : DateTime) (phone? : Option Nat) (sendOk : Bool)
    (b : Booking) : Booking :=
  match phone? with
  | none => b
  | some _ => if sendOk then { b with reminded_at := some now } else b

/-- The 24h-reminder half of the `send_booking_reminders` sweep:
select by `bookings_24h_query`, then run `send_24h_reminder` on each selected
booking.  `phoneOf` resolves a client id to its phone; `sendOk` is the
outcome of the external WhatsApp send for a booking. -/
def send_booking_reminders_24h (now : DateTime) (phoneOf : Nat → Option Nat)
    (sendOk : Booking → Bool) (bookings : List Booking) : List Booking :=
  bookings.map fun b =>
    if bookings_24h_query now b then send_24h_reminder now (phoneOf b.client_id) (sendOk b) b
    else b

inductive ExceptionCreateError
  | validationPast
  | duplicateException
deriving DecidableEq

/-- `ScheduleExceptionCreate` from schemas/master.py: the custom times are
optional and are not validated anywhere, for any exception type. -/
structure ScheduleExceptionCreate where
  exception_date : Day
  exception_type : ExceptionType
  custom_start_time : Option Time := none
  custom_end_time : Option Time := none
deriving DecidableEq

/-- `create_schedule_exception` from routes/masters.py (after the master
lookup and permission guards): reject a date before today, then reject a
duplicate for the same (master, date), else store the exception. -/
def create_schedule_exception (exceptions : List ScheduleException) (today : Day)
    (master_id : Nat) (data : ScheduleExceptionCreate) :
    Except ExceptionCreateError (List ScheduleException) :=
  if data.exception_date < today then .error .validationPast
  else
    match exceptions.find? (fun e =>
        e.master_id == master_id && e.exception_date == data.exception_date) with
    | some _ => .error .duplicateException
    | none =>
      .ok (exceptions ++
        [{ master_id := master_id
           exception_date := data.exception_date
           exception_type := data.exception_type
           custom_start_time := data.custom_start_time
           custom_end_time := data.custom_end_time }])

/-- Concrete database for the spec's Scenario A: one active master, one active
30-minute service, working hours 09:00 to 18:00 on weekday 1 (day index 0),
no breaks, no exceptions, no bookings. -/
def scenarioDb : Db :=
  { masters := [⟨1, true⟩]
    services := [⟨1, 30, 100, true⟩]
    master_services := []
    schedules := [⟨1, 1, 1, true, some 540, some 1080, []⟩]
    exceptions := []
    bookings := [] }

/-- A committed (PENDING) booking from 10:00 to 10:30 on day 0 for master 1. -/
def scenarioBooking : Booking :=
  { client_id := 9, master_id := 1, service_id := 1, branch_id := 1, booking_date := 0
    start_time := 600, end_time := 630, final_price := 100, status := .pending
    created_via := none, notes_from_client := none, notes_for_master := none
    reminded_at := none, completed_at := none, cancelled_at := none
    cancellation_reason := none }

/-- Scenario A's database plus the 10:00 to 10:30 pending booking. -/
def scenarioDbBooked : Db := { scenarioDb with bookings := [scenarioBooking] }

/-- Scenario A's database with the service marked inactive. -/
def scenarioDbInactive : Db := { scenarioDb with services := [⟨1, 30, 100, false⟩] }

theorem isBookedSlot_eq_false_disjoint {existing : List Booking} {booking_date : Day}
    {s e : Time} (h : isBookedSlot existing booking_date s e = false)
    {b : Booking} (hb : b ∈ existing) :
    combine booking_date e ≤ combine b.booking_date b.start_time ∨
    combine b.booking_date b.end_time + 5 ≤ combine booking_date s := by
  simp only [isBookedSlot, List.any_eq_false, Bool.not_eq_true', Bool.not_eq_false,
    Bool.or_eq_true, decide_eq_true_eq] at h
  exact h b hb

/-- Every slot emitted by the while loop passed the lead-time filter, the
break filter and the existing-booking filter. -/
theorem slotLoop_sound (fuel : Nat) (booking_date : Day) (end_dt : DateTime)
    (duration : Nat) (now : DateTime) (breaks : List BreakPeriod)
    (existing : List Booking) (current : DateTime) (slot : AvailableSlot)
    (hs : slot ∈ slotLoop fuel booking_date end_dt duration now breaks existing current) :
    now + 60 ≤ combine booking_date slot.slot_time ∧
    isBreakSlot breaks slot.slot_time slot.slot_end = false ∧
    isBookedSlot existing booking_date slot.slot_time slot.slot_end = false := by
  induction fuel generalizing current with
  | zero => simp [slotLoop] at hs
  | succ n ih =>
    rw [slotLoop] at hs
    simp only [] at hs
    split at hs
    · split at hs
      · exact ih _ hs
      · split at hs
        · exact ih _ hs
        · split at hs
          · exact ih _ hs
          · rcases List.mem_cons.mp hs with h | h
            · subst h
              refine ⟨?_, ?_, ?_⟩ <;> simp_all
            · exact ih _ h
    · simp at hs

/-- Every slot returned by `calculate_available_slots` passed the lead-time
filter and the existing-booking filter against the committed bookings of the
master on the date. -/
theorem calculate_mem_sound (db : Db) (master_id service_id branch_id : Nat)
    (booking_date : Day) (now : DateTime) (slots : List AvailableSlot)
    (hcalc : calculate_available_slots db master_id service_id branch_id booking_date now
      = some slots)
    (slot : AvailableSlot) (hs : slot ∈ slots) :
    now + 60 ≤ combine booking_date slot.slot_time ∧
    isBookedSlot (existingBookings db master_id booking_date) booking_date
      slot.slot_time slot.slot_end = false := by
  unfold calculate_available_slots at hcalc
  split at hcalc
  · cases hcalc; simp at hs
  · simp only [] at hcalc
    split at hcalc
    · cases hcalc; simp at hs
    · split at hcalc
      · cases hcalc
        exact ⟨(slotLoop_sound _ _ _ _ _ _ _ _ _ hs).1,
          (slotLoop_sound _ _ _ _ _ _ _ _ _ hs).2.2⟩
      · exact absurd hcalc (by simp)

theorem mem_existingBookings {db : Db} {master_id : Nat} {booking_date : Day}
    {b : Booking} (hb : b ∈ db.bookings) (hm : b.master_id = master_id)
    (hd : b.booking_date = booking_date)
    (hst : b.status = .pending ∨ b.status = .confirmed ∨ b.status = .in_progress) :
    b ∈ existingBookings db master_id booking_date := by
  unfold existingBookings
  refine List.mem_filter.mpr ⟨hb, ?_⟩
  rcases hst with h | h | h <;> simp [hm, hd, h]

/-- C1: every slot emitted by `calculate_available_slots` has a half-open
interval `[slot_start, slot_end)` disjoint from
`[booking_start, booking_end + 5 min)` for every existing booking of that
master on that date in status PENDING, CONFIRMED or IN_PROGRESS; the 5-minute
buffer sits only after the existing booking's end (the disjunction compares
the slot start against `end + 5` but the slot end against the plain start). -/
theorem slots_disjoint_from_committed_bookings
    (db : Db) (master_id service_id branch_id : Nat) (booking_date : Day)
    (now : DateTime) (slots : List AvailableSlot)
    (hcalc : calculate_available_slots db master_id service_id branch_id booking_date now
      = some slots)
    (slot : AvailableSlot) (hs : slot ∈ slots)
    (b : Booking) (hb : b ∈ db.bookings) (hm : b.master_id = master_id)
    (hd : b.booking_date = booking_date)
    (hst : b.status = .pending ∨ b.status = .confirmed ∨ b.status = .in_progress) :
    combine booking_date slot.slot_end ≤ combine booking_date b.start_time ∨
    combine booking_date b.end_time + 5 ≤ combine booking_date slot.slot_time := by
  have hsound := (calculate_mem_sound db master_id service_id branch_id booking_date now
    slots hcalc slot hs).2
  have hmem := mem_existingBookings hb hm hd hst
  have h := isBookedSlot_eq_false_disjoint hsound hmem
  rwa [hd] at h

/-- C1 witness: in the Scenario A database extended with a pending booking
10:00 to 10:30, the emitted slot 10:45 to 11:15 is disjoint from the
booking's buffered interval. -/
theorem slots_disjoint_from_committed_bookings_witness :
    combine 0 (675 : Time) ≤ combine 0 (600 : Time) ∨
    combine 0 (630 : Time) + 5 ≤ combine 0 (645 : Time) :=
  slots_disjoint_from_committed_bookings scenarioDbBooked 1 1 1 0 480
    ((calculate_available_slots scenarioDbBooked 1 1 1 0 480).getD []) (by decide)
    ⟨645, 675, true⟩ (by decide) scenarioBooking (by decide) (by decide) (by decide)
    (Or.inl (by decide))

/-- C6 counterexample: in Scenario A (working hours 09:00 to 18:00, minute
540 to 1080, no breaks, no bookings, 30-minute service) with now = 08:00
(minute 480) on the same day, the first returned slot starts at 09:00
(minute 540), not 10:00 (minute 600): the lead-time filter discards only
candidates strictly earlier than now + 1 hour, and 09:00 equals now + 1 hour
exactly. -/
theorem first_slot_scenario_a_counterexample :
    ((calculate_available_slots scenarioDb 1 1 1 0 480).getD []).head?
      = some ⟨540, 570, true⟩ ∧ (540 : Time) ≠ 600 := by
  constructor
  · decide
  · decide

/-- C6 (amended): with working hours 09:00 to 18:00, no breaks, no existing
bookings, a 30-minute service, and now = 08:00 on the same day, the first
slot returned by the slot generator starts at 09:00 (the boundary candidate
equal to now + 1 hour is kept, because the filter discards a candidate
exactly when candidate_start < now + 1 hour, strictly); in general every
returned slot starts at or after now + 1 hour. -/
theorem first_slot_scenario_a_and_lead_time :
    (((calculate_available_slots scenarioDb 1 1 1 0 480).getD []).head?
      = some ⟨540, 570, true⟩) ∧
    ∀ (db : Db) (master_id service_id branch_id : Nat) (booking_date : Day)
      (now : DateTime) (slots : List AvailableSlot),
      calculate_available_slots db master_id service_id branch_id booking_date now
        = some slots →
      ∀ slot ∈ slots, now + 60 ≤ combine booking_date slot.slot_time := by
  constructor
  · decide
  · intro db master_id service_id branch_id booking_date now slots hcalc slot hs
    exact (calculate_mem_sound db master_id service_id branch_id booking_date now
      slots hcalc slot hs).1

/-- C6 witness: the general lead-time bound applied to the first Scenario A
slot: minute 540 is at least 480 + 60. -/
theorem first_slot_scenario_a_and_lead_time_witness :
    480 + 60 ≤ combine 0 (540 : Time) :=
  first_slot_scenario_a_and_lead_time.2 scenarioDb 1 1 1 0 480
    ((calculate_available_slots scenarioDb 1 1 1 0 480).getD []) (by decide)
    ⟨540, 570, true⟩ (by decide)

/-- C7 counterexample: `calculate_available_slots` never consults
`Service.is_active`; in the Scenario A database with the service marked
inactive, the generator still returns a non-empty slot list. -/
theorem inactive_service_slots_counterexample :
    (scenarioDbInactive.services.find? (fun s => s.id == (1 : Nat))).map Service.is_active
      = some false ∧
    ((calculate_available_slots scenarioDbInactive 1 1 1 0 480).getD []).isEmpty = false := by
  constructor
  · decide
  · decide

/-- C7 (amended): if the requested service is missing, the slot generator
returns the empty sequence; an inactive service is not filtered here (the
active flag is checked only in `create_booking`). -/
theorem missing_service_yields_empty
    (db : Db) (master_id service_id branch_id : Nat) (booking_date : Day) (now : DateTime)
    (hserv : db.services.find? (fun s => s.id == service_id) = none) :
    calculate_available_slots db master_id service_id branch_id booking_date now
      = some [] := by
  unfold calculate_available_slots
  rw [hserv]

/-- C7 witness: a database with no services at all yields the empty slot
list. -/
theorem missing_service_yields_empty_witness :
    calculate_available_slots { scenarioDb with services := [] } 1 1 1 0 480 = some [] :=
  missing_service_yields_empty { scenarioDb with services := [] } 1 1 1 0 480 (by decide)

/-- Scenario A's database plus a day_off exception for master 1 on day 0,
which also has a regular working window. -/
def scenarioDbDayOff : Db :=
  { scenarioDb with exceptions := [⟨1, 0, .day_off, none, none⟩] }

/-- C5: exception precedence in slot generation.  A day_off or fully_booked
exception for (master, date) yields the empty slot list even when a regular
working window exists for that weekday; a custom_hours exception (with
non-null custom times) yields the slots generated from the exception's
custom start and end with an empty break list, so regular breaks are not
inherited. -/
theorem exception_precedence
    (db : Db) (master_id service_id branch_id : Nat) (booking_date : Day)
    (now : DateTime) (e : ScheduleException)
    (hexc : db.exceptions.find?
      (fun x => x.master_id == master_id && x.exception_date == booking_date) = some e) :
    ((e.exception_type = .day_off ∨ e.exception_type = .fully_booked) →
      calculate_available_slots db master_id service_id branch_id booking_date now
        = some []) ∧
    (∀ (service : Service) (ws we : Time),
      e.exception_type = .custom_hours →
      e.custom_start_time = some ws → e.custom_end_time = some we →
      db.services.find? (fun s => s.id == service_id) = some service →
      calculate_available_slots db master_id service_id branch_id booking_date now =
        some (slotLoop (combine booking_date we + 1) booking_date
          (combine booking_date we) service.duration_minutes now []
          (existingBookings db master_id booking_date) (combine booking_date ws))) := by
  constructor
  · intro h
    unfold calculate_available_slots
    cases hserv : db.services.find? (fun s => s.id == service_id) with
    | none => rfl
    | some service =>
      simp only [hexc]
      rcases h with h | h <;> rw [h]
  · intro service ws we ht hws hwe hserv
    unfold calculate_available_slots
    rw [hserv]
    simp only [hexc, ht, hws, hwe]

/-- C5 witness: Scenario E — a day_off exception on a date that also has a
regular working window makes the generator return the empty sequence. -/
theorem exception_precedence_witness :
    calculate_available_slots scenarioDbDayOff 1 1 1 0 480 = some [] :=
  (exception_precedence scenarioDbDayOff 1 1 1 0 480 ⟨1, 0, .day_off, none, none⟩
    (by decide)).1 (Or.inl rfl)

/-- Scenario A's database plus a custom_hours exception with null custom
times for master 1 on day 0. -/
def scenarioDbNullCustom : Db :=
  { scenarioDb with exceptions := [⟨1, 0, .custom_hours, none, none⟩] }

/-- C10: the exception-creation interface accepts a custom_hours exception
whose custom times are both null (they are optional in the input schema and
never validated), and for such a stored exception `calculate_available_slots`
raises (modelled as `none`: `datetime.combine` applied to a null time)
instead of returning a slot list — provided the service exists, since a
missing service short-circuits to an empty list first. -/
theorem null_custom_hours_exception_breaks_slots :
    (∀ (exceptions : List ScheduleException) (today : Day) (master_id : Nat)
      (data : ScheduleExceptionCreate),
      data.exception_type = .custom_hours →
      data.custom_start_time = none → data.custom_end_time = none →
      ¬ data.exception_date < today →
      exceptions.find? (fun e =>
        e.master_id == master_id && e.exception_date == data.exception_date) = none →
      create_schedule_exception exceptions today master_id data =
        .ok (exceptions ++ [⟨master_id, data.exception_date, .custom_hours, none, none⟩])) ∧
    (∀ (db : Db) (master_id service_id branch_id : Nat) (booking_date : Day)
      (now : DateTime) (e : ScheduleException),
      db.exceptions.find? (fun x =>
        x.master_id == master_id && x.exception_date == booking_date) = some e →
      e.exception_type = .custom_hours → e.custom_start_time = none →
      (db.services.find? (fun s => s.id == service_id)).isSome →
      calculate_available_slots db master_id service_id branch_id booking_date now
        = none) := by
  constructor
  · intro exceptions today master_id data ht hs he hpast hdup
    unfold create_schedule_exception
    rw [if_neg hpast, hdup, ht, hs, he]
  · intro db master_id service_id branch_id booking_date now e hexc ht hstart hserv
    obtain ⟨service, hserv⟩ := Option.isSome_iff_exists.mp hserv
    unfold calculate_available_slots
    rw [hserv]
    simp only [hexc, ht, hstart]

/-- C10 witness: concrete instances of both halves — creating a null-times
custom_hours exception succeeds, and slot generation on a database holding
one returns the error value. -/
theorem null_custom_hours_exception_breaks_slots_witness :
    create_schedule_exception [] 0 1 ⟨0, .custom_hours, none, none⟩ =
      .ok [⟨1, 0, .custom_hours, none, none⟩] ∧
    calculate_available_slots scenarioDbNullCustom 1 1 1 0 480 = none :=
  ⟨null_custom_hours_exception_breaks_slots.1 [] 0 1 ⟨0, .custom_hours, none, none⟩
      rfl rfl rfl (by decide) (by decide),
    null_custom_hours_exception_breaks_slots.2 scenarioDbNullCustom 1 1 1 0 480
      ⟨1, 0, .custom_hours, none, none⟩ (by decide) rfl rfl (by decide)⟩

/-- The transition table as stated in the specification: the salon table
plus the client's self-cancel transitions out of PENDING and CONFIRMED. -/
def claimedTransitions : BookingStatus → List BookingStatus
  | .pending => [.confirmed, .cancelled_by_salon, .cancelled_by_client]
  | .confirmed => [.in_progress, .cancelled_by_salon, .no_show, .cancelled_by_client]
  | .in_progress => [.completed, .cancelled_by_salon]
  | .completed => []
  | .cancelled_by_client => []
  | .cancelled_by_salon => []
  | .no_show => []

theorem allowed_sub_claimed (s t : BookingStatus)
    (h : (allowed_transitions s).contains t = true) : t ∈ claimedTransitions s := by
  cases s <;> cases t <;> simp_all [allowed_transitions, claimedTransitions]

/-- An HTTP 400 rejection, as raised for a disallowed status transition. -/
def isInvalidTransition (r : Except ApiError Booking) : Prop :=
  ∃ msg, r = .error (.badRequest msg)

/-- C3: for every pair (current state, requested state) outside the
specification's transition table, both the salon endpoint
(`update_booking_status`) and the client endpoint (`update_booking`) reject
the request with a 400 invalid-transition error, and the stored booking
(status and every other field) is unchanged. -/
theorem invalid_transition_rejected
    (booking : Booking) (requested : BookingStatus)
    (status_update : BookingStatusUpdate) (now : DateTime)
    (hreq : status_update.status = requested)
    (hnot : requested ∉ claimedTransitions booking.status) :
    isInvalidTransition (update_booking_status booking status_update now) ∧
    isInvalidTransition (update_booking booking (statusValue requested) now) ∧
    persisted booking (update_booking_status booking status_update now) = booking ∧
    persisted booking (update_booking booking (statusValue requested) now) = booking := by
  subst hreq
  have hcontains :
      (allowed_transitions booking.status).contains status_update.status = false := by
    cases h : (allowed_transitions booking.status).contains status_update.status
    · rfl
    · exact absurd (allowed_sub_claimed _ _ h) hnot
  have hsalon : update_booking_status booking status_update now =
      .error (.badRequest ("Cannot transition from " ++ statusValue booking.status ++
        " to " ++ statusValue status_update.status)) := by
    unfold update_booking_status
    simp only [hcontains]
    rfl
  have hclient : isInvalidTransition (update_booking booking
      (statusValue status_update.status) now) := by
    cases hb : booking.status <;> cases hr : status_update.status <;>
      simp_all [claimedTransitions, update_booking, statusValue, isInvalidTransition]
  refine ⟨⟨_, hsalon⟩, hclient, ?_, ?_⟩
  · rw [hsalon]; rfl
  · obtain ⟨msg, hmsg⟩ := hclient
    rw [hmsg]; rfl

/-- C3 witness: a COMPLETED booking cannot be moved to CONFIRMED through
either endpoint, and the stored row is untouched. -/
theorem invalid_transition_rejected_witness :
    isInvalidTransition (update_booking_status { scenarioBooking with status := .completed }
      ⟨.confirmed, none, none⟩ 0) ∧
    isInvalidTransition (update_booking { scenarioBooking with status := .completed }
      (statusValue .confirmed) 0) ∧
    persisted { scenarioBooking with status := .completed }
      (update_booking_status { scenarioBooking with status := .completed }
        ⟨.confirmed, none, none⟩ 0) = { scenarioBooking with status := .completed } ∧
    persisted { scenarioBooking with status := .completed }
      (update_booking { scenarioBooking with status := .completed }
        (statusValue .confirmed) 0) = { scenarioBooking with status := .completed } :=
  invalid_transition_rejected { scenarioBooking with status := .completed } .confirmed
    ⟨.confirmed, none, none⟩ 0 rfl (by decide)

/-- C4: the auto-completion sweep completes a booking exactly when its status
is CONFIRMED or IN_PROGRESS, its date is today or yesterday, and
`end_time + 2 hours <= now` (the boundary `now = end + 2h` included, by the
`<=`); the resulting `completed_at` is the booking's end datetime, not the
sweep's run time.  Every other booking is unchanged. -/
theorem auto_complete_characterization (now : DateTime) (bookings : List Booking) :
    auto_complete_bookings now bookings = bookings.map (fun b =>
      if (b.status = .confirmed ∨ b.status = .in_progress) ∧
          (b.booking_date = dateOf now ∨ b.booking_date = dateOf now - 1) ∧
          combine b.booking_date b.end_time + 120 ≤ now
      then { b with status := .completed,
                    completed_at := some (combine b.booking_date b.end_time) }
      else b) := by
  unfold auto_complete_bookings
  refine List.map_congr_left (fun b _ => ?_)
  unfold auto_complete_step
  have hiff : ((b.status == BookingStatus.confirmed || b.status == .in_progress) &&
      (b.booking_date == dateOf now || b.booking_date == dateOf now - 1)) = true ↔
      ((b.status = .confirmed ∨ b.status = .in_progress) ∧
        (b.booking_date = dateOf now ∨ b.booking_date = dateOf now - 1)) := by
    simp
  by_cases h1 : (b.status = .confirmed ∨ b.status = .in_progress) ∧
      (b.booking_date = dateOf now ∨ b.booking_date = dateOf now - 1)
  · rw [if_pos (hiff.mpr h1)]
    simp only []
    by_cases h2 : combine b.booking_date b.end_time + 120 ≤ now
    · rw [if_pos h2, if_pos ⟨h1.1, h1.2, h2⟩]
    · rw [if_neg h2, if_neg (fun hc => h2 hc.2.2)]
  · rw [if_neg (fun hc => h1 (hiff.mp hc)), if_neg (fun hc => h1 ⟨hc.1, hc.2.1⟩)]

/-- Modelled from the claim's words: a booking's date/time lies in the
approximately 30-minute window centered 24 hours after the sweep's current
time, that is between now + 23h45m and now + 24h15m. -/
def inClaimed24hWindow (now : DateTime) (b : Booking) : Prop :=
  now + 1425 ≤ combine b.booking_date b.start_time ∧
  combine b.booking_date b.start_time ≤ now + 1455

/-- C8 counterexample: the 24h-reminder query constrains only the calendar
date of the booking, never its start time.  At now = midnight of day 0, a
pending booking at 23:00 of day 1 (absolute minute 2820, far outside the
window [1425, 1455]) is selected all the same. -/
theorem reminder_24h_selection_counterexample :
    bookings_24h_query 0 { scenarioBooking with booking_date := 1, start_time := 1380 }
      = true ∧
    ¬ inClaimed24hWindow 0 { scenarioBooking with booking_date := 1, start_time := 1380 } := by
  constructor
  · decide
  · intro h
    have h2 := h.2
    simp [combine, scenarioBooking] at h2

/-- C8 (amended): the 24-hour reminder sweep selects exactly the bookings in
status PENDING or CONFIRMED with `reminded_at` NULL whose booking_date (the
calendar date only — start_time is not constrained) lies between the dates
of now + 23h45m and now + 24h15m; each selected booking whose client phone
is present and whose send succeeds gets `reminded_at` set to now, and every
other booking is unchanged. -/
theorem reminder_24h_characterization (now : DateTime) (phoneOf : Nat → Option Nat)
    (sendOk : Booking → Bool) (bookings : List Booking) :
    send_booking_reminders_24h now phoneOf sendOk bookings = bookings.map (fun b =>
      if (b.status = .pending ∨ b.status = .confirmed) ∧ b.reminded_at = none ∧
          dateOf (now + 1425) ≤ b.booking_date ∧ b.booking_date ≤ dateOf (now + 1455) ∧
          (phoneOf b.client_id).isSome ∧ sendOk b = true
      then { b with reminded_at := some now }
      else b) := by
  unfold send_booking_reminders_24h
  refine List.map_congr_left (fun b _ => ?_)
  have hq : bookings_24h_query now b = true ↔
      ((b.status = .pending ∨ b.status = .confirmed) ∧ b.reminded_at = none ∧
        dateOf (now + 1425) ≤ b.booking_date ∧ b.booking_date ≤ dateOf (now + 1455)) := by
    unfold bookings_24h_query
    simp [and_assoc]
  by_cases hqb : bookings_24h_query now b = true
  · rw [if_pos hqb]
    have hcond := hq.mp hqb
    cases hp : phoneOf b.client_id with
    | none => simp [send_24h_reminder]
    | some p =>
      cases hsend : sendOk b with
      | false => simp [send_24h_reminder]
      | true =>
        rcases hcond.1 with h | h <;>
          simp [send_24h_reminder, h, hcond.2.1, hcond.2.2.1, hcond.2.2.2]
  · rw [if_neg hqb]
    split
    · next hcase =>
      exact absurd (hq.mpr ⟨hcase.1, hcase.2.1, hcase.2.2.1, hcase.2.2.2.1⟩) hqb
    · rfl

/-- C9 counterexample: the creation guard rejects only dates strictly before
today (`exception_date < today`), so a date equal to today — which is not a
future date — is accepted and stored. -/
theorem exception_today_accepted_counterexample :
    create_schedule_exception [] 5 1 ⟨5, .day_off, none, none⟩
      = .ok [⟨1, 5, .day_off, none, none⟩] ∧ ¬ (5 : Day) < 5 := by
  constructor
  · rfl
  · decide

/-- A store of schedule exceptions with at most one exception per
(master, date). -/
def uniquePerMasterDate (l : List ScheduleException) : Prop :=
  l.Pairwise fun a b => ¬ (a.master_id = b.master_id ∧ a.exception_date = b.exception_date)

/-- C9 (amended): schedule-exception creation rejects a date strictly before
today with a ValidationError; for a date today or later, a second exception
for the same (master, date) fails with the duplicate-exception error (and, the
result being an error, nothing is stored); and any stored result preserves the
at-most-one-exception-per-(master, date) invariant. -/
theorem schedule_exception_creation_rules
    (exceptions : List ScheduleException) (today : Day) (master_id : Nat)
    (data : ScheduleExceptionCreate) :
    (data.exception_date < today →
      create_schedule_exception exceptions today master_id data = .error .validationPast) ∧
    (today ≤ data.exception_date →
      (∃ e ∈ exceptions, e.master_id = master_id ∧ e.exception_date = data.exception_date) →
      create_schedule_exception exceptions today master_id data
        = .error .duplicateException) ∧
    (∀ l, create_schedule_exception exceptions today master_id data = .ok l →
      uniquePerMasterDate exceptions → uniquePerMasterDate l) := by
  refine ⟨?_, ?_, ?_⟩
  · intro hpast
    unfold create_schedule_exception
    rw [if_pos hpast]
  · intro hfuture
    rintro ⟨e, he, hem, hed⟩
    unfold create_schedule_exception
    rw [if_neg (Nat.not_lt.mpr hfuture)]
    have : (exceptions.find? (fun e =>
        e.master_id == master_id && e.exception_date == data.exception_date)).isSome := by
      rw [List.find?_isSome]
      exact ⟨e, he, by simp [hem, hed]⟩
    obtain ⟨e', he'⟩ := Option.isSome_iff_exists.mp this
    rw [he']
  · intro l hok huniq
    unfold create_schedule_exception at hok
    split at hok
    · cases hok
    · split at hok
      · cases hok
      · next hfind =>
        cases hok
        rw [uniquePerMasterDate, List.pairwise_append]
        refine ⟨huniq, List.pairwise_singleton _ _, ?_⟩
        intro a ha b hb
        have hpa := List.find?_eq_none.mp hfind a ha
        simp only [List.mem_singleton] at hb
        subst hb
        simp only [Bool.and_eq_true, beq_iff_eq] at hpa
        intro ⟨h1, h2⟩
        exact hpa ⟨h1, h2⟩

/-- C9 witness: with an existing exception for master 1 on day 4 and today =
day 3, creating a second exception for day 4 fails with the duplicate
error. -/
theorem schedule_exception_creation_rules_witness :
    create_schedule_exception [⟨1, 4, .day_off, none, none⟩] 3 1 ⟨4, .custom_hours, none, none⟩
      = .error .duplicateException :=
  (schedule_exception_creation_rules [⟨1, 4, .day_off, none, none⟩] 3 1
    ⟨4, .custom_hours, none, none⟩).2.1 (by decide)
    ⟨⟨1, 4, .day_off, none, none⟩, by simp, rfl, rfl⟩

/-- C2: `create_booking` re-runs the slot computation at commit time.  A
missing-or-inactive master and a missing-or-inactive service each fail with
the 404 error; given both lookups succeed and the slot computation returns a
list, the call fails with the 409 conflict exactly when the requested
start_time is not among the computed slot starts, and a successful call
persists a PENDING booking whose end_time is start_time plus the service's
duration (as a time of day). -/
theorem create_booking_recheck
    (db : Db) (booking_data : BookingCreate) (client_id : Nat) (now : DateTime) :
    (db.masters.find? (fun m => m.id == booking_data.master_id && m.is_active) = none →
      create_booking db booking_data client_id now
        = .error (.notFound "Master not found or inactive")) ∧
    ((db.masters.find? (fun m => m.id == booking_data.master_id && m.is_active)).isSome →
      db.services.find? (fun s => s.id == booking_data.service_id && s.is_active) = none →
      create_booking db booking_data client_id now
        = .error (.notFound "Service not found or inactive")) ∧
    (∀ (service : Service) (slots : List AvailableSlot),
      (db.masters.find? (fun m => m.id == booking_data.master_id && m.is_active)).isSome →
      db.services.find? (fun s => s.id == booking_data.service_id && s.is_active)
        = some service →
      calculate_available_slots db booking_data.master_id booking_data.service_id
        booking_data.branch_id booking_data.booking_date now = some slots →
      ((create_booking db booking_data client_id now
          = .error (.conflict "Selected time slot is no longer available") ↔
        booking_data.start_time ∉ slots.map AvailableSlot.slot_time) ∧
       ((∃ b, create_booking db booking_data client_id now = .ok b) ↔
        booking_data.start_time ∈ slots.map AvailableSlot.slot_time) ∧
       (∀ b, create_booking db booking_data client_id now = .ok b →
        b.status = .pending ∧
        b.end_time = timeOf (combine booking_data.booking_date booking_data.start_time
          + service.duration_minutes) ∧
        (booking_data.start_time + service.duration_minutes < 1440 →
          b.end_time = booking_data.start_time + service.duration_minutes) ∧
        b.booking_date = booking_data.booking_date ∧
        b.start_time = booking_data.start_time ∧
        b.client_id = client_id ∧ b.master_id = booking_data.master_id ∧
        b.service_id = booking_data.service_id ∧ b.branch_id = booking_data.branch_id))) := by
  refine ⟨?_, ?_, ?_⟩
  · intro hmaster
    unfold create_booking
    simp only [hmaster]
  · intro hmaster hservice
    obtain ⟨m, hm⟩ := Option.isSome_iff_exists.mp hmaster
    unfold create_booking
    simp only [hm, hservice]
  · intro service slots hmaster hservice hcalc
    obtain ⟨m, hm⟩ := Option.isSome_iff_exists.mp hmaster
    have hmem : (slots.any fun slot => slot.slot_time == booking_data.start_time) = true ↔
        booking_data.start_time ∈ slots.map AvailableSlot.slot_time := by
      rw [List.any_eq_true]
      constructor
      · rintro ⟨slot, hs, hbeq⟩
        exact List.mem_map.mpr ⟨slot, hs, beq_iff_eq.mp hbeq⟩
      · intro hmap
        obtain ⟨slot, hs, heq⟩ := List.mem_map.mp hmap
        exact ⟨slot, hs, beq_iff_eq.mpr heq⟩
    unfold create_booking
    simp only [hm, hservice, hcalc]
    by_cases hin : booking_data.start_time ∈ slots.map AvailableSlot.slot_time
    · rw [if_pos (hmem.mpr hin)]
      refine ⟨?_, ?_, ?_⟩
      · simp [hin]
      · simp [hin]
      · intro b hb
        cases hb
        refine ⟨rfl, rfl, ?_, rfl, rfl, rfl, rfl, rfl, rfl⟩
        intro hlt
        show (booking_data.booking_date * 1440 + booking_data.start_time +
            service.duration_minutes) % 1440
          = booking_data.start_time + service.duration_minutes
        rw [Nat.add_assoc, Nat.add_comm (booking_data.booking_date * 1440),
          Nat.add_mul_mod_self_right]
        exact Nat.mod_eq_of_lt hlt
    · rw [if_neg (fun hc => hin (hmem.mp hc))]
      refine ⟨?_, ?_, ?_⟩
      · simp [hin]
      · simp [hin]
      · intro b hb
        simp at hb

/-- C2 witness: in Scenario A, requesting start time 9 (not a generated slot
start) is rejected with the conflict error by the commit-time re-check. -/
theorem create_booking_recheck_witness :
    create_booking scenarioDb ⟨1, 1, 1, 0, 9, none⟩ 9 480
      = .error (.conflict "Selected time slot is no longer available") :=
  ((create_booking_recheck scenarioDb ⟨1, 1, 1, 0, 9, none⟩ 9 480).2.2
    ⟨1, 30, 100, true⟩ ((calculate_available_slots scenarioDb 1 1 1 0 480).getD [])
    (by decide) (by decide) (by decide)).1.mpr (by decide)

end Jazyl
